import Mathlib

/-!
Verification development for the castbot streaming/session subsystem.

The definitions below are a shallow embedding of `src/castbot/utils.py`
(`LocalToken`, `secret_token`), `src/castbot/http.py` (`parse_http_range`,
`AsyncDebounce`, `Http._stream_handler`, `Http._timeout_handler`,
`Http.add_remote_token`) and `src/castbot/devices/web.py` (`WebDevice`,
`WebDeviceApiRequestPoll`).  Python machine integers are modelled as `Nat`
(Python ints are unbounded), Python float division as `ℚ`, Python `set`s as
`Finset`, and the mutable per-class dictionaries as explicit state records.
-/

/-! ### Decimal / hexadecimal string rendering and parsing

Python renders an `int` in an f-string via `str(n)` and `LocalToken.__str__`
uses `format(n, "x")`; `int(s)` / `int(s, 16)` parse them back.  We model the
character-level encoding exactly (lowercase hex, no sign, no prefix). -/

/-- Digit character used by Python for base ≤ 16 rendering: `0`-`9` then
lowercase `a`-`f`. -/
def digitChar (d : Nat) : Char :=
  if d < 10 then Char.ofNat (48 + d) else Char.ofNat (87 + d)

/-- Numeric value of a decimal digit character (`int(s)` on digit strings). -/
def decVal (c : Char) : Nat := c.toNat - 48

/-- Numeric value of a lowercase hex digit character (`int(s, 16)`). -/
def hexVal (c : Char) : Nat :=
  if 97 ≤ c.toNat then c.toNat - 87 else c.toNat - 48

/-- Little-endian base-`b` digit list of `n`.  The `fuel` argument only bounds
the recursion depth; any `fuel ≥ n` yields the digits of `n`. -/
def natDigitsAux (b : Nat) : Nat → Nat → List Nat
  | _, 0 => []
  | 0, _ + 1 => []
  | fuel + 1, n + 1 => ((n + 1) % b) :: natDigitsAux b fuel ((n + 1) / b)

/-- Little-endian base-`b` digit list of `n`. -/
def natDigits (b n : Nat) : List Nat := natDigitsAux b n n

/-- Characters of `n` rendered in base `b`, most significant first; renders
`0` as `"0"` exactly as Python does. -/
def natToChars (b n : Nat) : List Char :=
  if n = 0 then ['0'] else ((natDigits b n).map digitChar).reverse

/-- Python `str(n)` for a nonnegative int, as interpolated by f-strings. -/
def pyStr (n : Nat) : String := String.mk (natToChars 10 n)

/-- Python `format(n, "x")` (used by `LocalToken.__str__`). -/
def hexStr (n : Nat) : String := String.mk (natToChars 16 n)

/-- Python `int(s)` restricted to decimal digit strings. -/
def parseDec (s : String) : Nat :=
  s.data.foldl (fun a c => a * 10 + decVal c) 0

/-- Python `int(s, 16)` restricted to lowercase hex digit strings. -/
def parseHex (s : String) : Nat :=
  s.data.foldl (fun a c => a * 16 + hexVal c) 0

/-- Python `str.isdigit` (ASCII fragment relevant here): the string is
nonempty and every character is a decimal digit. -/
def pyIsDigit (s : String) : Bool :=
  !s.data.isEmpty && s.data.all Char.isDigit

/-- Value of a little-endian digit list in base `b`. -/
def fromDigitsLE (b : Nat) : List Nat → Nat
  | [] => 0
  | d :: rest => d + b * fromDigitsLE b rest

theorem natDigitsAux_fromLE (b : Nat) (hb : 2 ≤ b) :
    ∀ fuel n, n ≤ fuel → fromDigitsLE b (natDigitsAux b fuel n) = n
  | fuel, 0, _ => by cases fuel <;> simp [natDigitsAux, fromDigitsLE]
  | fuel + 1, n + 1, h => by
    have hlt : (n + 1) / b < n + 1 := Nat.div_lt_self (Nat.succ_pos n) hb
    have hdiv : (n + 1) / b ≤ fuel := by omega
    have ih := natDigitsAux_fromLE b hb fuel ((n + 1) / b) hdiv
    simp only [natDigitsAux, fromDigitsLE, ih]
    exact Nat.mod_add_div (n + 1) b

theorem natDigitsAux_lt (b : Nat) (hb : 0 < b) :
    ∀ fuel n d, d ∈ natDigitsAux b fuel n → d < b
  | fuel, 0, d => by cases fuel <;> simp [natDigitsAux]
  | 0, n + 1, d => by simp [natDigitsAux]
  | fuel + 1, n + 1, d => by
    intro hmem
    simp only [natDigitsAux, List.mem_cons] at hmem
    rcases hmem with h | h
    · exact h ▸ Nat.mod_lt _ hb
    · exact natDigitsAux_lt b hb fuel ((n + 1) / b) d h

theorem natDigits_fromLE (b n : Nat) (hb : 2 ≤ b) :
    fromDigitsLE b (natDigits b n) = n :=
  natDigitsAux_fromLE b hb n n (Nat.le_refl n)

theorem natDigits_lt (b n : Nat) (hb : 0 < b) :
    ∀ d ∈ natDigits b n, d < b :=
  fun d h => natDigitsAux_lt b hb n n d h

theorem foldl_digitChars (b : Nat) (val : Char → Nat)
    (hval : ∀ d, d < b → val (digitChar d) = d) :
    ∀ l : List Nat, (∀ d ∈ l, d < b) → ∀ a : Nat,
      ((l.map digitChar).reverse).foldl (fun acc c => acc * b + val c) a
        = a * b ^ l.length + fromDigitsLE b l
  | [], _, a => by simp [fromDigitsLE]
  | d :: rest, hmem, a => by
    have hd : val (digitChar d) = d := hval d (hmem d (List.mem_cons_self d rest))
    have ih := foldl_digitChars b val hval rest
      (fun x hx => hmem x (List.mem_cons_of_mem d hx)) a
    simp only [List.map_cons, List.reverse_cons, List.foldl_append, ih,
      List.foldl_cons, List.foldl_nil, hd, fromDigitsLE, List.length_cons]
    ring

theorem parse_natToChars (b : Nat) (val : Char → Nat) (hb : 2 ≤ b)
    (hval : ∀ d, d < b → val (digitChar d) = d) (hzero : val (digitChar 0) = 0)
    (n : Nat) :
    (natToChars b n).foldl (fun a c => a * b + val c) 0 = n := by
  by_cases h : n = 0
  · subst h
    have h0 : digitChar 0 = '0' := by decide
    simp [natToChars, h0 ▸ hzero]
  · have hfold := foldl_digitChars b val hval (natDigits b n)
      (natDigits_lt b n (by omega)) 0
    simp only [natToChars, h, if_false, hfold, Nat.zero_mul, Nat.zero_add]
    exact natDigits_fromLE b n hb

theorem parseDec_pyStr (n : Nat) : parseDec (pyStr n) = n := by
  have := parse_natToChars 10 decVal (by omega)
    (by decide) (by decide) n
  simpa [parseDec, pyStr] using this

theorem parseHex_hexStr (n : Nat) : parseHex (hexStr n) = n := by
  have := parse_natToChars 16 hexVal (by omega)
    (by decide) (by decide) n
  simpa [parseHex, hexStr] using this

theorem natToChars_ne_nil (b n : Nat) : natToChars b n ≠ [] := by
  by_cases h : n = 0
  · simp [natToChars, h]
  · obtain ⟨m, rfl⟩ := Nat.exists_eq_succ_of_ne_zero h
    simp [natToChars, natDigits, natDigitsAux]

theorem digitChar_isDigit : ∀ d, d < 10 → (digitChar d).isDigit = true := by
  decide

theorem pyIsDigit_pyStr (n : Nat) : pyIsDigit (pyStr n) = true := by
  have hne : natToChars 10 n ≠ [] := natToChars_ne_nil 10 n
  have hall : ∀ c ∈ natToChars 10 n, c.isDigit = true := by
    intro c hc
    by_cases h : n = 0
    · simp [natToChars, h] at hc
      subst hc
      decide
    · simp only [natToChars, h, if_false, List.mem_reverse, List.mem_map] at hc
      obtain ⟨d, hd, rfl⟩ := hc
      exact digitChar_isDigit d (natDigits_lt 10 n (by omega) d hd)
  simp only [pyIsDigit, pyStr, Bool.and_eq_true, List.all_eq_true]
  exact ⟨by simp [List.isEmpty_iff, hne], hall⟩

theorem pyStr_ne_empty (n : Nat) : (pyStr n).data.isEmpty = false := by
  simp [pyStr, List.isEmpty_iff, natToChars_ne_nil 10 n]

/-! ### LocalToken (`src/castbot/utils.py`)

`LocalToken.__init__(message_id, token=None)` stores `int(message_id)` and
`int(token or secret_token())`; note Python truthiness: an `int` token equal
to `0` (and a `None` token, and an empty string) falls back to a fresh draw of
`secret_token()`.  `secret_token(nbytes=8)` is a uniformly random value below
`2 ^ 64`; we model the draw by an explicit `fresh` parameter.
`__hash__` is `(message_id << 64) ^ token`, `__eq__` compares hashes,
`__str__` is `format(hash, "x")` and `deserialize` parses a hex string then
splits it at bit 64. -/

structure LocalToken where
  message_id : Nat
  token : Nat
deriving DecidableEq, Repr

/-- `LocalToken.__hash__`: `(self.message_id << 64) ^ self.token`. -/
def LocalToken.hash (t : LocalToken) : Nat :=
  (t.message_id <<< 64) ^^^ t.token

/-- `LocalToken.__eq__`: instance check plus hash comparison. -/
def LocalToken.eqPy (t u : LocalToken) : Bool := t.hash == u.hash

/-- `LocalToken.__str__`: `format(self.__hash__(), "x")`. -/
def LocalToken.serialize (t : LocalToken) : String := hexStr t.hash

/-- `LocalToken.__init__` called with an `int`-or-`None` token argument
(`int(token or secret_token())`): `None` and `0` are falsy, so both fall back
to the fresh random draw `fresh`. -/
def LocalToken.initNat (message_id : Nat) (token : Option Nat) (fresh : Nat) :
    LocalToken :=
  ⟨message_id,
    match token with
    | some t => if t = 0 then fresh else t
    | none => fresh⟩

/-- `LocalToken.__init__` called with string arguments (as in
`Http._stream_handler`): only the empty string is falsy, so `"0"` yields
token `0`. -/
def LocalToken.initStr (message_id token : String) (fresh : Nat) : LocalToken :=
  ⟨parseDec message_id, if token.data.isEmpty then fresh else parseDec token⟩

/-- `LocalToken.deserialize` after the `int(local_token_raw, 16)` conversion:
`LocalToken(v >> 64, v & ~(~0 << 64))`; in Python `~(~0 << 64)` is
`2 ^ 64 - 1`.  The low half goes through `__init__`, hence a zero low half is
replaced by the fresh draw. -/
def LocalToken.deserializeVal (v : Nat) (fresh : Nat) : LocalToken :=
  LocalToken.initNat (v >>> 64) (some (v &&& (2 ^ 64 - 1))) fresh

/-- `LocalToken.deserialize` on a hex string. -/
def LocalToken.deserialize (raw : String) (fresh : Nat) : LocalToken :=
  LocalToken.deserializeVal (parseHex raw) fresh

theorem hash_shiftRight (m t : Nat) (h : t < 2 ^ 64) :
    ((m <<< 64) ^^^ t) >>> 64 = m := by
  apply Nat.eq_of_testBit_eq
  intro i
  have hbit : t.testBit (64 + i) = false :=
    Nat.testBit_lt_two_pow
      (lt_of_lt_of_le h (Nat.pow_le_pow_right (by omega) (by omega)))
  simp [Nat.testBit_shiftRight, Nat.testBit_xor, Nat.testBit_shiftLeft, hbit]

theorem hash_mod (m t : Nat) (h : t < 2 ^ 64) :
    ((m <<< 64) ^^^ t) % 2 ^ 64 = t := by
  apply Nat.eq_of_testBit_eq
  intro i
  rw [Nat.testBit_mod_two_pow]
  rcases Nat.lt_or_ge i 64 with hi | hi
  · simp [hi, Nat.testBit_xor, Nat.testBit_shiftLeft, Nat.not_le_of_lt hi]
  · have hbit : t.testBit i = false :=
      Nat.testBit_lt_two_pow
        (lt_of_lt_of_le h (Nat.pow_le_pow_right (by omega) hi))
    simp [Nat.not_lt_of_le hi, hbit]

theorem hash_decomp (m t : Nat) (h : t < 2 ^ 64) :
    (m <<< 64) ^^^ t = m * 2 ^ 64 + t := by
  have hv := Nat.div_add_mod ((m <<< 64) ^^^ t) (2 ^ 64)
  have hdiv : ((m <<< 64) ^^^ t) / 2 ^ 64 = m := by
    rw [← Nat.shiftRight_eq_div_pow]
    exact hash_shiftRight m t h
  rw [hash_mod m t h, hdiv] at hv
  omega

theorem LocalToken.hash_eq (t : LocalToken) (h : t.token < 2 ^ 64) :
    t.hash = t.message_id * 2 ^ 64 + t.token :=
  hash_decomp t.message_id t.token h

/-! ### Range parsing (`parse_http_range`, `src/castbot/http.py` lines 68-90)

The regex `bytes=([0-9]+)-([0-9]+)?` extracts the decimal offset `A` and an
optional cap `B`; a non-matching header raises `ValueError` (the handler turns
that into a 400, modelled by the `Option RangeHdr` request argument below).
Here we embed the arithmetic performed on a successful match. -/

/-- A successfully regex-matched `Range: bytes=A-B?` header: group 1 is the
decimal offset `A`, group 2 the optional cap `B`. -/
structure RangeHdr where
  offset : Nat
  maxSize : Option Nat
deriving DecidableEq, Repr

/-- `parse_http_range` after the regex match: returns
`(safe_offset, data_to_skip, max_size)` with
`safe_offset = (offset // block_size) * block_size` and
`data_to_skip = offset - safe_offset`. -/
def parse_http_range (r : RangeHdr) (block_size : Nat) :
    Nat × Nat × Option Nat :=
  let safe_offset := r.offset / block_size * block_size
  (safe_offset, r.offset - safe_offset, r.maxSize)

/-! ### The stream handler (`Http._stream_handler`, lines 222-298)

The handler is modelled up to the point where the response status line and
range headers are fixed (the `StreamResponse` is prepared); the block pump
that follows does not change the status.  Inputs:

* `tokens` — the admission table `Http._tokens` keyed, like every Python dict,
  by `LocalToken.__hash__`/`__eq__`, i.e. by the 128-bit composite value;
* `midStr`, `tokStr` — the raw `{message_id}` and `{token}` path components;
* `rangeHdr` — `none` when no `Range` header is present, `some none` when a
  header is present but the regex does not match (→ `ValueError` → 400),
  `some (some r)` on a match;
* `message` — result of `get_message`: `none` for `ValueError` (→ 404),
  `some none` when the media is not a `Document` (→ 404), `some (some size)`
  for a document of `size` bytes.

`GET` and `HEAD` produce the same status and range headers (a `Response` vs a
prepared `StreamResponse`), so the method is not modelled. -/

/-- Outcome of `Http._stream_handler` up to the response head. -/
inductive StreamResult where
  | plain (status : Nat)
  | streamHead (status read_after size max_size : Nat)
deriving DecidableEq, Repr

/-- The part of `Http._stream_handler` after range parsing (lines 252-298):
the skip sanity check, the message/document lookup, the bound checks against
the file size and the status-code choice. -/
def stream_handler_ranged (block_size : Nat)
    (offset data_to_skip : Nat) (max_size? : Option Nat)
    (message : Option (Option Nat)) : StreamResult :=
  if data_to_skip > block_size then .plain 500
  else
    match message with
    | none => .plain 404
    | some none => .plain 404
    | some (some size) =>
      let read_after := offset + data_to_skip
      if read_after > size then .plain 400
      else if max_size?.elim false (fun b => size < b) then .plain 400
      else
        let max_size := max_size?.getD size
        let status := if read_after ≠ 0 ∨ max_size ≠ size then 206 else 200
        .streamHead status read_after size max_size

def stream_handler (block_size : Nat) (tokens : Nat → Bool)
    (midStr tokStr : String) (rangeHdr : Option (Option RangeHdr))
    (message : Option (Option Nat)) : StreamResult :=
  if ¬ pyIsDigit midStr then .plain 401
  else if ¬ pyIsDigit tokStr then .plain 401
  else
    let local_token := LocalToken.initStr midStr tokStr 0
    if ¬ tokens local_token.hash then .plain 403
    else
      match rangeHdr with
      | some none => .plain 400
      | none => stream_handler_ranged block_size 0 0 none message
      | some (some r) =>
        let parsed := parse_http_range r block_size
        stream_handler_ranged block_size parsed.1 parsed.2.1
          parsed.2.2 message

/-- `Http.add_remote_token` URI construction (lines 131-135):
`f"http.../stream/{local_token.message_id}/{local_token.token}"` — both path
components are Python `int`s, rendered in decimal. -/
def add_remote_token_uri (host : String) (port : Nat) (t : LocalToken) :
    String :=
  "http://" ++ host ++ ":" ++ pyStr port ++ "/stream/" ++
    pyStr t.message_id ++ "/" ++ pyStr t.token

/-- Modelled from the spec wording of C2: the playback URI with the final
path component being "the full 128-bit hex" of the LocalToken. -/
def spec_stream_uri (host : String) (port : Nat) (t : LocalToken) : String :=
  "http://" ++ host ++ ":" ++ pyStr port ++ "/stream/" ++
    pyStr t.message_id ++ "/" ++ hexStr t.hash

/-- Modelled from the spec wording of C4: a 128-bit composite whose low
64 bits are the message_id and whose high 64 bits are the random token. -/
def spec_composite_low_mid (t : LocalToken) : Nat :=
  t.message_id + (t.token <<< 64)

/-! ### AsyncDebounce (`src/castbot/http.py` lines 40-65)

`AsyncDebounce` keeps one current task handle (`self._task`) and the last
arguments.  `update_args`: if the current task exists and `task.done()` is
true, return `False` without touching anything; otherwise cancel the current
task (if any), store the new args and schedule a fresh task via `_run`.
`reschedule` re-runs `_run` with the remembered args.

We model the asyncio tasks explicitly: every task ever created is kept in a
chronological list (most recent first; the head is `self._task`).  A task
whose sleep elapses before being cancelled fires once (`fire`); a cancelled
task never fires; `task.done()` is true for both fired and cancelled tasks. -/

inductive TStatus where
  | pending
  | cancelled
  | fired
deriving DecidableEq, Repr

structure Debounce (α : Type) where
  tasks : List (α × TStatus)
  args : Option α

/-- Arguments of the tasks that have already invoked the wrapped function. -/
def Debounce.firedArgs {α : Type} (s : Debounce α) : List α :=
  (s.tasks.filter fun p => p.2 == TStatus.fired).map Prod.fst

/-- Arguments of the tasks still scheduled to run. -/
def Debounce.pendingArgs {α : Type} (s : Debounce α) : List α :=
  (s.tasks.filter fun p => p.2 == TStatus.pending).map Prod.fst

/-- `AsyncDebounce.update_args`: returns the Python return value and the new
state.  The head of `tasks` is `self._task`; `task.done()` holds for a fired
or cancelled task. -/
def Debounce.update_args {α : Type} (a : α) (s : Debounce α) :
    Bool × Debounce α :=
  match s.tasks with
  | (x, TStatus.pending) :: rest =>
    (true, ⟨(a, TStatus.pending) :: (x, TStatus.cancelled) :: rest, some a⟩)
  | (_, _) :: _ => (false, s)
  | [] => (true, ⟨[(a, TStatus.pending)], some a⟩)

/-- `AsyncDebounce.reschedule`: `_run()` with the remembered args (no `done`
check and no cancellation of the current task, exactly as in the source). -/
def Debounce.reschedule {α : Type} (s : Debounce α) : Bool × Debounce α :=
  match s.args with
  | none => (false, s)
  | some a => (true, ⟨(a, TStatus.pending) :: s.tasks, s.args⟩)

/-- The debounce delay elapses for the current task: if it is pending it
fires (invoking the wrapped function with its captured args). -/
def Debounce.fire {α : Type} (s : Debounce α) : Debounce α :=
  match s.tasks with
  | (x, TStatus.pending) :: rest => ⟨(x, TStatus.fired) :: rest, s.args⟩
  | _ => s

/-! ### SessionTable state and the idle reclaimer (`Http._timeout_handler`)

`Http` holds four dicts keyed by `LocalToken` (hence by its 128-bit hash
value): `_tokens` (admission → `PlayingVideo`), `_downloaded_blocks`,
`_stream_debounce` and `_stream_transports`.  The reclaimer inspects
`is_closing()` of every registered transport; we record those boolean
answers as the transport set.  The observable calls made while the handler
runs are returned as an event trace:

* `closeCall tok pct` — `self._tokens[token].close(remain_blocks_perceptual)`
  begins (`PlayingVideo.close`, `src/castbot/video.py` lines 208-212);
* `onClose tok` — `device.on_close(local_token)` inside `PlayingVideo.close`
  (after the control-message update, before `playing_videos.remove`);
* `removeToken tok` — `del self._tokens[local_token]`, i.e. removal from the
  SessionTable admission map, which happens after `close` returns;
* `reschedule tok` — `self._stream_debounce[local_token].reschedule()`.

Python float division in `remain_blocks / blocks * 100` is modelled by exact
division in `ℚ`. -/

inductive HEvent where
  | closeCall (tok : Nat) (pct : ℚ)
  | onClose (tok : Nat)
  | removeToken (tok : Nat)
  | reschedule (tok : Nat)
deriving DecidableEq, Repr

structure HttpState where
  tokens : Nat → Bool
  downloadedBlocks : Nat → Option (Finset Nat)
  streamDebounce : Nat → Bool
  streamTransports : Nat → Option (List Bool)

/-- `Http._get_stream_transports`: the registered set, or `∅` if the token
has none; each list entry is a transport's `is_closing()` answer. -/
def HttpState.transportsOf (s : HttpState) (tok : Nat) : List Bool :=
  (s.streamTransports tok).getD []

/-- `all(t.is_closing() for t in ...)` — vacuously true on the empty set. -/
def HttpState.allClosed (s : HttpState) (tok : Nat) : Bool :=
  (s.transportsOf tok).all id

/-- `Http._timeout_handler(local_token, size)`: returns the state after the
handler and the trace of observable calls. -/
def timeout_handler (block_size : Nat) (tok : Nat) (size : Nat)
    (s : HttpState) : HttpState × List HEvent :=
  if s.allClosed tok then
    let blocks : Int := (size / block_size : Nat) + 1
    let step1 : Int × HttpState :=
      match s.downloadedBlocks tok with
      | some db =>
        (blocks - db.card,
          { s with downloadedBlocks := fun k =>
              if k = tok then none else s.downloadedBlocks k })
      | none => (blocks, s)
    let remain_blocks := step1.1
    let s1 := step1.2
    let step2 : HttpState × List HEvent :=
      if s1.tokens tok then
        let remain_blocks_perceptual : ℚ :=
          (remain_blocks : ℚ) / (blocks : ℚ) * 100
        ({ s1 with tokens := fun k => if k = tok then false else s1.tokens k },
          [HEvent.closeCall tok remain_blocks_perceptual, HEvent.onClose tok,
            HEvent.removeToken tok])
      else (s1, [])
    let s2 := step2.1
    let s3 :=
      { s2 with streamDebounce := fun k =>
          if k = tok then false else s2.streamDebounce k }
    let s4 :=
      { s3 with streamTransports := fun k =>
          if k = tok then none else s3.streamTransports k }
    if s4.streamDebounce tok then (s4, step2.2 ++ [HEvent.reschedule tok])
    else (s4, step2.2)
  else if s.streamDebounce tok then (s, [HEvent.reschedule tok])
  else (s, [])

/-- The `(token, percentage)` arguments of the `close` calls in a trace. -/
def closeCalls (tr : List HEvent) : List (Nat × ℚ) :=
  tr.filterMap fun e =>
    match e with
    | HEvent.closeCall t p => some (t, p)
    | _ => none

def isOnCloseEv (tok : Nat) : HEvent → Bool
  | HEvent.onClose t => t == tok
  | _ => false

def isRemoveTokenEv (tok : Nat) : HEvent → Bool
  | HEvent.removeToken t => t == tok
  | _ => false

/-- Number of `device.on_close(token)` invocations in a trace. -/
def onCloseCount (tok : Nat) (tr : List HEvent) : Nat :=
  (tr.filter (isOnCloseEv tok)).length

/-- The ordering asserted by the spec: the token is removed from the
SessionTable strictly before `on_close` is invoked. -/
def removeBeforeOnClose (tok : Nat) (tr : List HEvent) : Bool :=
  match tr.findIdx? (isRemoveTokenEv tok), tr.findIdx? (isOnCloseEv tok) with
  | some i, some j => i < j
  | _, _ => false

/-! ### Web device long polling (`src/castbot/devices/web.py`)

`WebDevice` stores an optional pending URL; `play` stores it, `stop` clears
it, `get_url_to_play` returns and clears it.  The poll endpoint handler
parses the remote token (`ValueError` → 400, modelled by a `none` argument),
looks the device up (`KeyError` → 404), touches its timestamp (which does not
affect the response and is not modelled) and answers 302 when no URL is
pending, else 200 with the URL. -/

structure WebDevice where
  urlToPlay : Option String
  deviceName : String
  remoteToken : Nat
deriving DecidableEq, Repr

/-- `WebDevice.get_url_to_play`: return the pending URL and clear it. -/
def WebDevice.get_url_to_play (d : WebDevice) : Option String × WebDevice :=
  (d.urlToPlay, { d with urlToPlay := none })

/-- `WebDevice.play(url, title, local_token)`: store the URL. -/
def WebDevice.play (url : String) (d : WebDevice) : WebDevice :=
  { d with urlToPlay := some url }

/-- `WebDevice.stop`: clear any pending URL. -/
def WebDevice.stop (d : WebDevice) : WebDevice :=
  { d with urlToPlay := none }

inductive PollResult where
  | ok (url : String)
  | redirect
  | notFound
  | badRequest
deriving DecidableEq, Repr

/-- `WebDeviceApiRequestPoll.handle`: `remote_token?` is `none` when
`int(...)` raised `ValueError`.  Returns the response and the updated device
table (the devices dict is mutated through `get_url_to_play`). -/
def poll_handle (devices : Nat → Option WebDevice)
    (remote_token? : Option Nat) :
    PollResult × (Nat → Option WebDevice) :=
  match remote_token? with
  | none => (.badRequest, devices)
  | some rt =>
    match devices rt with
    | none => (.notFound, devices)
    | some d =>
      let r := d.get_url_to_play
      let devices' := fun k => if k = rt then some r.2 else devices k
      match r.1 with
      | none => (.redirect, devices')
      | some u => (.ok u, devices')

/-! ## Claim theorems -/

/-- C6: for every regex-matched `Range: bytes=A-[B]` header and every block
size `B_size > 0`, `parse_http_range` returns `(aligned, skip, cap)` with
`aligned = (A / B_size) * B_size` (integer division), `aligned ≡ 0` modulo
`B_size`, `aligned ≤ A`, `A - aligned = skip < B_size`, and the cap passed
through unchanged — in particular `cap = none` when `B` is absent. -/
theorem C6_parse_http_range (A : Nat) (B : Option Nat) (bs : Nat)
    (hbs : 0 < bs) :
    (parse_http_range ⟨A, B⟩ bs).1 = A / bs * bs
    ∧ (parse_http_range ⟨A, B⟩ bs).1 % bs = 0
    ∧ (parse_http_range ⟨A, B⟩ bs).1 ≤ A
    ∧ A - (parse_http_range ⟨A, B⟩ bs).1 = (parse_http_range ⟨A, B⟩ bs).2.1
    ∧ (parse_http_range ⟨A, B⟩ bs).2.1 < bs
    ∧ (parse_http_range ⟨A, B⟩ bs).2.2 = B := by
  have hdm := Nat.div_add_mod A bs
  have hmodlt : A % bs < bs := Nat.mod_lt A hbs
  have hle : A / bs * bs ≤ A := Nat.div_mul_le_self A bs
  have hcomm : A / bs * bs = bs * (A / bs) := Nat.mul_comm _ _
  refine ⟨rfl, Nat.mul_mod_left _ _, hle, rfl, ?_, rfl⟩
  show A - A / bs * bs < bs
  omega

/-- Witness for C6 at the S2 scenario values: `Range: bytes=1500000-` with
`block_size = 1048576`. -/
theorem C6_witness :
    0 < 1048576
    ∧ ((parse_http_range ⟨1500000, none⟩ 1048576).1
        = 1500000 / 1048576 * 1048576
      ∧ (parse_http_range ⟨1500000, none⟩ 1048576).1 % 1048576 = 0
      ∧ (parse_http_range ⟨1500000, none⟩ 1048576).1 ≤ 1500000
      ∧ 1500000 - (parse_http_range ⟨1500000, none⟩ 1048576).1
          = (parse_http_range ⟨1500000, none⟩ 1048576).2.1
      ∧ (parse_http_range ⟨1500000, none⟩ 1048576).2.1 < 1048576
      ∧ (parse_http_range ⟨1500000, none⟩ 1048576).2.2 = none) :=
  ⟨by decide, C6_parse_http_range 1500000 none 1048576 (by decide)⟩

/-- The debounce state after `update_args x` immediately followed by
`update_args y` on a fresh `AsyncDebounce`. -/
def debounceAfterTwo (α : Type) (x y : α) : Debounce α :=
  (Debounce.update_args y ((Debounce.update_args x
    (⟨[], none⟩ : Debounce α)).2)).2

/-- C9: starting from a fresh `AsyncDebounce`, `update_args x` immediately
followed by `update_args y` leaves exactly one pending task, carrying `y`,
and no invocation has happened yet; when that task's delay elapses exactly
one invocation occurs, with argument `y`, and nothing remains pending.
Moreover `update_args` returns `false` and changes nothing whenever the
current task has already completed. -/
theorem C9_debounce (α : Type) (x y z : α) :
    (debounceAfterTwo α x y).pendingArgs = [y]
    ∧ (debounceAfterTwo α x y).firedArgs = []
    ∧ (debounceAfterTwo α x y).fire.firedArgs = [y]
    ∧ (debounceAfterTwo α x y).fire.pendingArgs = []
    ∧ Debounce.update_args z (debounceAfterTwo α x y).fire
        = (false, (debounceAfterTwo α x y).fire)
    ∧ ∀ (s : Debounce α) (a : α) (rest : List (α × TStatus)),
        s.tasks = (a, TStatus.fired) :: rest →
        Debounce.update_args z s = (false, s) := by
  refine ⟨rfl, rfl, rfl, rfl, rfl, ?_⟩
  intro s a rest h
  cases s with
  | mk tasks args =>
    simp only at h
    subst h
    rfl

/-- Witness for C9 at a concrete type and arguments. -/
theorem C9_witness :
    (debounceAfterTwo Nat 1 2).pendingArgs = [2]
    ∧ (debounceAfterTwo Nat 1 2).firedArgs = []
    ∧ (debounceAfterTwo Nat 1 2).fire.firedArgs = [2]
    ∧ (debounceAfterTwo Nat 1 2).fire.pendingArgs = []
    ∧ Debounce.update_args 3 (debounceAfterTwo Nat 1 2).fire
        = (false, (debounceAfterTwo Nat 1 2).fire)
    ∧ ∀ (s : Debounce Nat) (a : Nat) (rest : List (Nat × TStatus)),
        s.tasks = (a, TStatus.fired) :: rest →
        Debounce.update_args 3 s = (false, s) :=
  C9_debounce Nat 1 2 3

/-- C10: polling a registered web device is one-shot.  If the device has a
pending URL, the poll returns 200 with it and clears it, so an immediately
following poll (and any further poll) returns 302 until a new `play` stores a
fresh URL; `stop` likewise clears the pending URL so the next poll returns
302. -/
theorem C10_web_poll (devices : Nat → Option WebDevice) (rt : Nat)
    (d : WebDevice) (u u2 : String)
    (hdev : devices rt = some d) (hurl : d.urlToPlay = some u) :
    (poll_handle devices (some rt)).1 = PollResult.ok u
    ∧ (poll_handle (poll_handle devices (some rt)).2 (some rt)).1
        = PollResult.redirect
    ∧ (poll_handle (poll_handle (poll_handle devices (some rt)).2
        (some rt)).2 (some rt)).1 = PollResult.redirect
    ∧ (poll_handle (fun k => if k = rt then some (WebDevice.play u2 d)
        else devices k) (some rt)).1 = PollResult.ok u2
    ∧ (poll_handle (fun k => if k = rt then some d.stop else devices k)
        (some rt)).1 = PollResult.redirect := by
  simp [poll_handle, WebDevice.get_url_to_play, WebDevice.play,
    WebDevice.stop, hdev, hurl]

/-- Witness for C10 with a concrete one-device table. -/
theorem C10_witness :
    (fun k => if k = 7 then some (⟨some "u", "w", 7⟩ : WebDevice) else none) 7
        = some (⟨some "u", "w", 7⟩ : WebDevice)
    ∧ (⟨some "u", "w", 7⟩ : WebDevice).urlToPlay = some "u"
    ∧ ((poll_handle (fun k => if k = 7 then some (⟨some "u", "w", 7⟩ : WebDevice) else none) (some 7)).1 = PollResult.ok "u"
      ∧ (poll_handle (poll_handle (fun k => if k = 7 then some (⟨some "u", "w", 7⟩ : WebDevice) else none) (some 7)).2 (some 7)).1
          = PollResult.redirect
      ∧ (poll_handle (poll_handle (poll_handle (fun k => if k = 7 then some (⟨some "u", "w", 7⟩ : WebDevice) else none) (some 7)).2
          (some 7)).2 (some 7)).1 = PollResult.redirect
      ∧ (poll_handle (fun k => if k = 7 then some (WebDevice.play "v" (⟨some "u", "w", 7⟩ : WebDevice))
          else (fun k => if k = 7 then some (⟨some "u", "w", 7⟩ : WebDevice) else none) k) (some 7)).1 = PollResult.ok "v"
      ∧ (poll_handle (fun k => if k = 7 then some (⟨some "u", "w", 7⟩ : WebDevice).stop
          else (fun k => if k = 7 then some (⟨some "u", "w", 7⟩ : WebDevice) else none) k) (some 7)).1
          = PollResult.redirect) :=
  ⟨by simp, rfl,
    C10_web_poll (fun k => if k = 7 then some ⟨some "u", "w", 7⟩ else none)
      7 ⟨some "u", "w", 7⟩ "u" "v" (by simp) rfl⟩

/-! ### Helper lemmas about the stream handler -/

theorem initStr_pyStr (m tok f : Nat) :
    LocalToken.initStr (pyStr m) (pyStr tok) f = ⟨m, tok⟩ := by
  simp [LocalToken.initStr, pyStr_ne_empty, parseDec_pyStr]

/-- With numeric path components whose token is not admitted, the handler
answers 403 regardless of the range header and of the message store. -/
theorem stream_handler_not_admitted (bs : Nat) (tokens : Nat → Bool)
    (mid ts : String) (rh : Option (Option RangeHdr))
    (msg : Option (Option Nat))
    (hm : pyIsDigit mid = true) (ht : pyIsDigit ts = true)
    (hadm : tokens (LocalToken.initStr mid ts 0).hash = false) :
    stream_handler bs tokens mid ts rh msg = .plain 403 := by
  simp [stream_handler, hm, ht, hadm]

/-- With numeric path components, an admitted token, no `Range` header and a
document of size `sz`, the handler prepares a 200 response covering the whole
file. -/
theorem stream_handler_admitted_noRange (bs sz : Nat) (tokens : Nat → Bool)
    (mid ts : String)
    (hm : pyIsDigit mid = true) (ht : pyIsDigit ts = true)
    (hadm : tokens (LocalToken.initStr mid ts 0).hash = true) :
    stream_handler bs tokens mid ts none (some (some sz))
      = .streamHead 200 0 sz sz := by
  simp [stream_handler, hm, ht, hadm, stream_handler_ranged]

/-- C1 counterexample: the token path component `"deadbeef"` is not a digit
string, so `_stream_handler` answers 401 — not the 403 the claim asserts —
whether or not any token is admitted; admitting tokens cannot make
`GET /stream/1/deadbeef` return 200 either. -/
theorem C1_counterexample :
    stream_handler 1048576 (fun _ => false) "1" "deadbeef" none
        (some (some 100)) = StreamResult.plain 401
    ∧ stream_handler 1048576 (fun _ => true) "1" "deadbeef" none
        (some (some 100)) = StreamResult.plain 401
    ∧ StreamResult.plain 401 ≠ StreamResult.plain 403 := by
  decide

/-- C1 (amended): for numeric path components, a token that is not admitted
(not in `Http._tokens`) is answered 403 before the message store is even
consulted (the result is the same for every range header and message-store
answer); after admitting the token, the same request (no range header, a
document of size `sz`) yields status 200.  A token path component that is not
all digits — such as `"deadbeef"` — is answered 401 instead. -/
theorem C1_admission (bs sz : Nat) (tokens : Nat → Bool) (mid ts : String)
    (rh : Option (Option RangeHdr)) (msg : Option (Option Nat))
    (hm : pyIsDigit mid = true) (ht : pyIsDigit ts = true)
    (hadm : tokens (LocalToken.initStr mid ts 0).hash = false) :
    stream_handler bs tokens mid ts rh msg = StreamResult.plain 403
    ∧ stream_handler bs (fun k => k == (LocalToken.initStr mid ts 0).hash)
        mid ts none (some (some sz)) = StreamResult.streamHead 200 0 sz sz
    ∧ (∀ tokens2 : Nat → Bool,
        stream_handler bs tokens2 "1" "deadbeef" rh msg
          = StreamResult.plain 401) := by
  refine ⟨stream_handler_not_admitted bs tokens mid ts rh msg hm ht hadm,
    stream_handler_admitted_noRange bs sz _ mid ts hm ht (by simp), ?_⟩
  intro tokens2
  simp [stream_handler, pyIsDigit]

/-- Witness for C1 at concrete inputs. -/
theorem C1_witness :
    pyIsDigit "1" = true ∧ pyIsDigit "255" = true
    ∧ (fun _ : Nat => false) (LocalToken.initStr "1" "255" 0).hash = false
    ∧ (stream_handler 4 (fun _ => false) "1" "255" none (some (some 100))
          = StreamResult.plain 403
      ∧ stream_handler 4 (fun k => k == (LocalToken.initStr "1" "255" 0).hash)
          "1" "255" none (some (some 100))
          = StreamResult.streamHead 200 0 100 100
      ∧ (∀ tokens2 : Nat → Bool,
          stream_handler 4 tokens2 "1" "deadbeef" none (some (some 100))
            = StreamResult.plain 401)) :=
  ⟨by decide, by decide, rfl,
    C1_admission 4 100 (fun _ => false) "1" "255" none (some (some 100))
      (by decide) (by decide) rfl⟩

/-- C2 counterexample: for the session token `⟨0, 255⟩` the URI built by
`add_remote_token` ends in `255` (the decimal form of the 64-bit random
token), not in the 128-bit hex form `ff` the claim describes. -/
theorem C2_counterexample :
    add_remote_token_uri "localhost" 8080 ⟨0, 255⟩
        ≠ spec_stream_uri "localhost" 8080 ⟨0, 255⟩
    ∧ add_remote_token_uri "localhost" 8080 ⟨0, 255⟩
        = "http://localhost:8080/stream/0/255" := by
  decide

/-- C2 (amended): the playback URI handed to the device is
`http://{listen_host}:{listen_port}/stream/{message_id}/{token}` where both
path components are rendered in decimal and the final component is the
decimal form of the 64-bit random token (not the 128-bit hex).  The two
components are all-digit strings that parse back to the token's fields, so a
device request on this URI passes the numeric checks and — once the token is
admitted — is served with status 200. -/
theorem C2_uri (host : String) (port bs sz : Nat) (t : LocalToken) :
    add_remote_token_uri host port t
      = "http://" ++ host ++ ":" ++ pyStr port ++ "/stream/"
          ++ pyStr t.message_id ++ "/" ++ pyStr t.token
    ∧ pyIsDigit (pyStr t.token) = true
    ∧ parseDec (pyStr t.token) = t.token
    ∧ parseDec (pyStr t.message_id) = t.message_id
    ∧ stream_handler bs (fun k => k == t.hash) (pyStr t.message_id)
        (pyStr t.token) none (some (some sz))
        = StreamResult.streamHead 200 0 sz sz := by
  refine ⟨rfl, pyIsDigit_pyStr t.token, parseDec_pyStr t.token,
    parseDec_pyStr t.message_id, ?_⟩
  have h := stream_handler_admitted_noRange bs sz (fun k => k == t.hash)
    (pyStr t.message_id) (pyStr t.token) (pyIsDigit_pyStr t.message_id)
    (pyIsDigit_pyStr t.token) ?_
  · exact h
  · simp [initStr_pyStr]

/-- C3 counterexample: a request with `Range: bytes=0-50` against a document
of size 100 (so `B = 50 < size`) is not rejected with 400 — the handler
serves it with status 206 and upper bound 50. -/
theorem C3_counterexample :
    stream_handler 1048576 (fun _ => true) "1" "7"
        (some (some ⟨0, some 50⟩)) (some (some 100))
      = StreamResult.streamHead 206 0 100 50
    ∧ StreamResult.streamHead 206 0 100 50 ≠ StreamResult.plain 400 := by
  decide

/-- C3 (amended): the rejection is the other way around: a supplied cap `B`
with `B > size` is answered 400 (`size < max_size` in the source); a supplied
cap `B ≤ size` is accepted and used as the upper bound, and an absent cap
makes the upper bound the file size. -/
theorem C3_range_cap (bs sz A B : Nat) (tokens : Nat → Bool)
    (mid ts : String)
    (hm : pyIsDigit mid = true) (ht : pyIsDigit ts = true)
    (hadm : tokens (LocalToken.initStr mid ts 0).hash = true)
    (hbs : 0 < bs) :
    (sz < B →
      stream_handler bs tokens mid ts (some (some ⟨A, some B⟩))
        (some (some sz)) = StreamResult.plain 400)
    ∧ (B ≤ sz → A ≤ sz →
      stream_handler bs tokens mid ts (some (some ⟨A, some B⟩))
        (some (some sz))
        = StreamResult.streamHead (if A ≠ 0 ∨ B ≠ sz then 206 else 200)
            A sz B)
    ∧ (A ≤ sz →
      stream_handler bs tokens mid ts (some (some ⟨A, none⟩))
        (some (some sz))
        = StreamResult.streamHead (if A ≠ 0 then 206 else 200) A sz sz) := by
  have hskip : A - A / bs * bs ≤ bs := by
    have := Nat.mod_lt A hbs
    have hdm := Nat.div_add_mod A bs
    have hcomm : A / bs * bs = bs * (A / bs) := Nat.mul_comm _ _
    omega
  have hra : A / bs * bs + (A - A / bs * bs) = A :=
    Nat.add_sub_cancel' (Nat.div_mul_le_self A bs)
  refine ⟨?_, ?_, ?_⟩
  · intro hB
    simp only [stream_handler, hm, ht, hadm, parse_http_range,
      stream_handler_ranged]
    simp [hskip, Nat.not_lt_of_le, hra, hB,
      show ¬ (bs < A - A / bs * bs) from by omega]
  · intro hB hA
    simp only [stream_handler, hm, ht, hadm, parse_http_range,
      stream_handler_ranged]
    simp [hra, show ¬ (bs < A - A / bs * bs) from by omega,
      show ¬ (sz < A) from by omega, show ¬ (sz < B) from by omega]
  · intro hA
    simp only [stream_handler, hm, ht, hadm, parse_http_range,
      stream_handler_ranged]
    simp [hra, show ¬ (bs < A - A / bs * bs) from by omega,
      show ¬ (sz < A) from by omega]

/-- Witness for C3 at concrete inputs: size 100, block size 4, `A = 8`,
`B = 50`. -/
theorem C3_witness :
    pyIsDigit "1" = true ∧ pyIsDigit "9" = true
    ∧ (fun _ : Nat => true) (LocalToken.initStr "1" "9" 0).hash = true
    ∧ 0 < 4
    ∧ ((100 < 50 →
        stream_handler 4 (fun _ => true) "1" "9" (some (some ⟨8, some 50⟩))
          (some (some 100)) = StreamResult.plain 400)
      ∧ (50 ≤ 100 → 8 ≤ 100 →
        stream_handler 4 (fun _ => true) "1" "9" (some (some ⟨8, some 50⟩))
          (some (some 100))
          = StreamResult.streamHead (if 8 ≠ 0 ∨ 50 ≠ 100 then 206 else 200)
              8 100 50)
      ∧ (8 ≤ 100 →
        stream_handler 4 (fun _ => true) "1" "9" (some (some ⟨8, none⟩))
          (some (some 100))
          = StreamResult.streamHead (if 8 ≠ 0 then 206 else 200) 8 100 100)) :=
  ⟨by decide, by decide, rfl, by decide,
    C3_range_cap 4 100 8 50 (fun _ => true) "1" "9" (by decide) (by decide)
      rfl (by decide)⟩

/-- C4 counterexample: for `LocalToken ⟨1, 2⟩` the composite value is
`1·2^64 + 2` — the message_id occupies the high 64 bits and the random token
the low 64 bits, the opposite of the claimed layout. -/
theorem C4_counterexample :
    LocalToken.hash ⟨1, 2⟩ ≠ spec_composite_low_mid ⟨1, 2⟩
    ∧ LocalToken.hash ⟨1, 2⟩ = 1 * 2 ^ 64 + 2 := by
  decide

/-- C4 (amended): a LocalToken is a 128-bit composite whose high 64 bits are
the message_id and whose low 64 bits are the random token; the on-wire form
is the hex string of that full value, and `deserialize` splits a parsed value
accordingly — with the caveat that a zero low half is replaced by a fresh
random draw (Python truthiness of `token or secret_token()`). -/
theorem C4_layout (t : LocalToken) (h64 : t.token < 2 ^ 64) (v fresh : Nat) :
    t.hash = t.message_id * 2 ^ 64 + t.token
    ∧ t.serialize = hexStr t.hash
    ∧ (LocalToken.deserializeVal v fresh).message_id = v / 2 ^ 64
    ∧ (v % 2 ^ 64 ≠ 0 →
        LocalToken.deserializeVal v fresh = ⟨v / 2 ^ 64, v % 2 ^ 64⟩)
    ∧ (v % 2 ^ 64 = 0 →
        LocalToken.deserializeVal v fresh = ⟨v / 2 ^ 64, fresh⟩) := by
  have hmask : v &&& (2 ^ 64 - 1) = v % 2 ^ 64 :=
    Nat.and_pow_two_sub_one_eq_mod v 64
  have hshift : v >>> 64 = v / 2 ^ 64 := Nat.shiftRight_eq_div_pow v 64
  refine ⟨LocalToken.hash_eq t h64, rfl, ?_, ?_, ?_⟩
  · simp [LocalToken.deserializeVal, LocalToken.initNat, hshift]
  · intro hnz
    have hm2 : v &&& 18446744073709551615 = v % 18446744073709551616 := by
      simpa using hmask
    have hnz2 : ¬ v % 18446744073709551616 = 0 := by simpa using hnz
    simp [LocalToken.deserializeVal, LocalToken.initNat, hshift, hm2, hnz2]
  · intro hz
    have hm2 : v &&& 18446744073709551615 = v % 18446744073709551616 := by
      simpa using hmask
    have hz2 : v % 18446744073709551616 = 0 := by simpa using hz
    simp [LocalToken.deserializeVal, LocalToken.initNat, hshift, hm2, hz2]

/-- Witness for C4 at `t = ⟨3, 5⟩`, `v = 2^64 + 7`, `fresh = 1`. -/
theorem C4_witness :
    (5 : Nat) < 2 ^ 64
    ∧ ((LocalToken.hash ⟨3, 5⟩ = 3 * 2 ^ 64 + 5)
      ∧ LocalToken.serialize ⟨3, 5⟩ = hexStr (LocalToken.hash ⟨3, 5⟩)
      ∧ (LocalToken.deserializeVal (2 ^ 64 + 7) 1).message_id
          = (2 ^ 64 + 7) / 2 ^ 64
      ∧ ((2 ^ 64 + 7) % 2 ^ 64 ≠ 0 →
          LocalToken.deserializeVal (2 ^ 64 + 7) 1
            = ⟨(2 ^ 64 + 7) / 2 ^ 64, (2 ^ 64 + 7) % 2 ^ 64⟩)
      ∧ ((2 ^ 64 + 7) % 2 ^ 64 = 0 →
          LocalToken.deserializeVal (2 ^ 64 + 7) 1
            = ⟨(2 ^ 64 + 7) / 2 ^ 64, 1⟩)) :=
  ⟨by decide, C4_layout ⟨3, 5⟩ (by decide) (2 ^ 64 + 7) 1⟩

/-- C5 counterexample: a token whose 64-bit random draw is `0` does not
round-trip.  `LocalToken(1)` with random draw `0` is `⟨1, 0⟩`; its hex form is
`"10000000000000000"`, whose low 64 bits are zero, so `deserialize` passes a
falsy token to `__init__` and a fresh random draw (here `1`) replaces it: the
result compares unequal to the original. -/
theorem C5_counterexample :
    LocalToken.eqPy
      (LocalToken.deserialize
        (LocalToken.serialize (LocalToken.initNat 1 none 0)) 1)
      (LocalToken.initNat 1 none 0) = false
    ∧ LocalToken.serialize (LocalToken.initNat 1 none 0)
        = hexStr (2 ^ 64) := by
  have h1 : LocalToken.serialize (LocalToken.initNat 1 none 0)
      = hexStr (2 ^ 64) := by
    simp [LocalToken.serialize, LocalToken.initNat, LocalToken.hash]
  refine ⟨?_, h1⟩
  rw [LocalToken.deserialize, h1, parseHex_hexStr]
  decide

/-- C5 (amended): for every LocalToken constructed from a message_id and a
nonzero 64-bit random token, deserializing its hex string yields a token
equal to the original (indeed structurally identical), for any fresh draw the
deserializer might make; when the random component is `0`, `__init__`
regenerates it and the round-trip fails (see the counterexample). -/
theorem C5_roundtrip (m tok fresh2 : Nat) (h0 : tok ≠ 0)
    (h64 : tok < 2 ^ 64) :
    LocalToken.deserialize
        (LocalToken.serialize (LocalToken.initNat m none tok)) fresh2
      = LocalToken.initNat m none tok
    ∧ LocalToken.eqPy
        (LocalToken.deserialize
          (LocalToken.serialize (LocalToken.initNat m none tok)) fresh2)
        (LocalToken.initNat m none tok) = true := by
  have hinit : LocalToken.initNat m none tok = ⟨m, tok⟩ := rfl
  have hser : LocalToken.serialize (⟨m, tok⟩ : LocalToken)
      = hexStr ((m <<< 64) ^^^ tok) := rfl
  have hround : LocalToken.deserialize
      (LocalToken.serialize (LocalToken.initNat m none tok)) fresh2
      = (⟨m, tok⟩ : LocalToken) := by
    rw [hinit, hser, LocalToken.deserialize, parseHex_hexStr]
    have hmask : ((m <<< 64) ^^^ tok) &&& (2 ^ 64 - 1)
        = ((m <<< 64) ^^^ tok) % 2 ^ 64 :=
      Nat.and_pow_two_sub_one_eq_mod _ 64
    rw [LocalToken.deserializeVal, hmask, hash_mod m tok h64]
    have hdiv : ((m <<< 64) ^^^ tok) >>> 64 = m := hash_shiftRight m tok h64
    rw [hdiv]
    simp [LocalToken.initNat, h0]
  refine ⟨hinit ▸ hround, ?_⟩
  rw [hround, hinit]
  simp [LocalToken.eqPy]

/-- Witness for C5 at `m = 2`, `tok = 3`, fresh draw `9`. -/
theorem C5_witness :
    (3 : Nat) ≠ 0 ∧ (3 : Nat) < 2 ^ 64
    ∧ (LocalToken.deserialize
          (LocalToken.serialize (LocalToken.initNat 2 none 3)) 9
        = LocalToken.initNat 2 none 3
      ∧ LocalToken.eqPy
          (LocalToken.deserialize
            (LocalToken.serialize (LocalToken.initNat 2 none 3)) 9)
          (LocalToken.initNat 2 none 3) = true) :=
  ⟨by decide, by decide, C5_roundtrip 2 3 9 (by decide) (by decide)⟩

/-- The percentage computed by `_timeout_handler` (lines 197-206):
`blocks = size // block_size + 1`, `remain_blocks = blocks - len(downloaded)`
(`blocks` itself when no download set was observed), and
`remain_blocks / blocks * 100` in exact rational arithmetic. -/
def reclaimPct (block_size size : Nat) (db : Option (Finset Nat)) : ℚ :=
  let blocks : Int := (size / block_size : Nat) + 1
  let remain : Int := blocks - ((db.elim 0 Finset.card : Nat) : Int)
  (remain : ℚ) / (blocks : ℚ) * 100

/-- Under the reclamation conditions — every registered transport closed and
the token admitted — `_timeout_handler` removes the token's four entries,
emits `close(pct)`, `on_close` and the SessionTable deletion in that order,
and does not reschedule. -/
theorem timeout_handler_run (bs sz tok : Nat) (s : HttpState)
    (hclosed : s.allClosed tok = true) (hadm : s.tokens tok = true) :
    timeout_handler bs tok sz s
      = ({ tokens := fun k => if k = tok then false else s.tokens k,
           downloadedBlocks := fun k =>
             if k = tok then none else s.downloadedBlocks k,
           streamDebounce := fun k =>
             if k = tok then false else s.streamDebounce k,
           streamTransports := fun k =>
             if k = tok then none else s.streamTransports k },
         [HEvent.closeCall tok (reclaimPct bs sz (s.downloadedBlocks tok)),
          HEvent.onClose tok, HEvent.removeToken tok]) := by
  cases hdb : s.downloadedBlocks tok with
  | none =>
    simp only [timeout_handler, hclosed, if_true, hdb, hadm, reclaimPct]
    norm_num [Prod.mk.injEq, HttpState.mk.injEq, Option.elim]
    funext k
    by_cases hk : k = tok
    · simp [hk, hdb]
    · simp [hk]
  | some db =>
    simp only [timeout_handler, hclosed, if_true, hdb, hadm, reclaimPct]
    norm_num [Option.elim]

/-- C7: when the idle debounce fires for `(token, size)`, every registered
transport of the session is closed and the token is admitted, the reclaimer
performs exactly one `close` call, whose argument is
`(blocks - |downloaded_blocks|) / blocks * 100` with
`blocks = ⌊size / B_size⌋ + 1` and `|downloaded_blocks|` defaulting to `0`
(so the remaining count defaults to `blocks`) when no download set was
observed. -/
theorem C7_reclaim (bs sz tok : Nat) (s : HttpState)
    (hclosed : s.allClosed tok = true) (hadm : s.tokens tok = true) :
    closeCalls (timeout_handler bs tok sz s).2
      = [(tok, reclaimPct bs sz (s.downloadedBlocks tok))]
    ∧ reclaimPct bs sz (s.downloadedBlocks tok)
      = ((((sz / bs : Nat) : ℚ) + 1
            - (((s.downloadedBlocks tok).elim 0 Finset.card : Nat) : ℚ))
          / (((sz / bs : Nat) : ℚ) + 1)) * 100 := by
  constructor
  · rw [timeout_handler_run bs sz tok s hclosed hadm]
    rfl
  · simp only [reclaimPct]
    generalize sz / bs = n
    generalize (s.downloadedBlocks tok).elim 0 Finset.card = c
    push_cast
    ring

/-- Witness for C7: one open-then-closed transport, a two-block download set
over a 100-byte file with 10-byte blocks. -/
theorem C7_witness :
    HttpState.allClosed
        ⟨fun k => k == 5, fun k => if k = 5 then some {0, 10} else none,
          fun k => k == 5, fun k => if k = 5 then some [true, true] else none⟩
        5 = true
    ∧ HttpState.tokens
        ⟨fun k => k == 5, fun k => if k = 5 then some {0, 10} else none,
          fun k => k == 5, fun k => if k = 5 then some [true, true] else none⟩
        5 = true
    ∧ (closeCalls (timeout_handler 10 5 100
        ⟨fun k => k == 5, fun k => if k = 5 then some {0, 10} else none,
          fun k => k == 5, fun k => if k = 5 then some [true, true] else none⟩).2
        = [(5, reclaimPct 10 100
            (HttpState.downloadedBlocks
              ⟨fun k => k == 5, fun k => if k = 5 then some {0, 10} else none,
                fun k => k == 5,
                fun k => if k = 5 then some [true, true] else none⟩ 5))]
      ∧ reclaimPct 10 100
          (HttpState.downloadedBlocks
            ⟨fun k => k == 5, fun k => if k = 5 then some {0, 10} else none,
              fun k => k == 5,
              fun k => if k = 5 then some [true, true] else none⟩ 5)
        = ((((100 / 10 : Nat) : ℚ) + 1
              - (((HttpState.downloadedBlocks
                  ⟨fun k => k == 5,
                    fun k => if k = 5 then some {0, 10} else none,
                    fun k => k == 5,
                    fun k => if k = 5 then some [true, true] else none⟩
                  5).elim 0 Finset.card : Nat) : ℚ))
            / (((100 / 10 : Nat) : ℚ) + 1)) * 100) :=
  ⟨by decide, by decide,
    C7_reclaim 10 100 5
      ⟨fun k => k == 5, fun k => if k = 5 then some {0, 10} else none,
        fun k => k == 5, fun k => if k = 5 then some [true, true] else none⟩
      (by decide) (by decide)⟩

/-- C8 counterexample: in a reclamation run the SessionTable deletion
(`del self._tokens[local_token]`) happens after `close` returns, and
`PlayingVideo.close` invokes `device.on_close` before that — so the token is
not removed from the SessionTable before `on_close` is invoked, contrary to
the claimed ordering. -/
theorem C8_counterexample :
    removeBeforeOnClose 5 (timeout_handler 10 5 100
        ⟨fun k => k == 5, fun _ => none, fun k => k == 5,
          fun k => if k = 5 then some [true] else none⟩).2 = false
    ∧ onCloseCount 5 (timeout_handler 10 5 100
        ⟨fun k => k == 5, fun _ => none, fun k => k == 5,
          fun k => if k = 5 then some [true] else none⟩).2 = 1 := by
  decide

/-- C8 (amended): session close runs at most once per token lifecycle, but
the token is removed from the SessionTable only after `on_close` returns
(`on_close` strictly precedes the deletion in the trace).  After the handler
completes, the token is gone: subsequent `/stream` requests carrying it
receive 403, and a second debounce fire performs no further calls — in
particular `on_close` is never re-invoked. -/
theorem C8_close_lifecycle (bs sz tok : Nat) (s : HttpState)
    (hclosed : s.allClosed tok = true) (hadm : s.tokens tok = true) :
    onCloseCount tok (timeout_handler bs tok sz s).2 = 1
    ∧ ((timeout_handler bs tok sz s).1).tokens tok = false
    ∧ ((timeout_handler bs tok sz s).2).findIdx (isOnCloseEv tok)
        < ((timeout_handler bs tok sz s).2).findIdx (isRemoveTokenEv tok)
    ∧ (timeout_handler bs tok sz (timeout_handler bs tok sz s).1).2 = []
    ∧ onCloseCount tok
        (timeout_handler bs tok sz (timeout_handler bs tok sz s).1).2 = 0
    ∧ ∀ (mid ts : String) (rh : Option (Option RangeHdr))
        (msg : Option (Option Nat)),
        pyIsDigit mid = true → pyIsDigit ts = true →
        (LocalToken.initStr mid ts 0).hash = tok →
        stream_handler bs ((timeout_handler bs tok sz s).1).tokens mid ts
          rh msg = StreamResult.plain 403 := by
  have hrun := timeout_handler_run bs sz tok s hclosed hadm
  have h1 : onCloseCount tok (timeout_handler bs tok sz s).2 = 1 := by
    rw [hrun]
    simp [onCloseCount, isOnCloseEv]
  have h2 : ((timeout_handler bs tok sz s).1).tokens tok = false := by
    rw [hrun]
    simp
  have h3 : ((timeout_handler bs tok sz s).2).findIdx (isOnCloseEv tok)
      < ((timeout_handler bs tok sz s).2).findIdx (isRemoveTokenEv tok) := by
    rw [hrun]
    simp [List.findIdx, List.findIdx.go, isOnCloseEv, isRemoveTokenEv]
  have h4 : (timeout_handler bs tok sz (timeout_handler bs tok sz s).1).2
      = [] := by
    rw [hrun]
    simp [timeout_handler, HttpState.allClosed, HttpState.transportsOf]
  refine ⟨h1, h2, h3, h4, by rw [h4]; rfl, ?_⟩
  intro mid ts rh msg hm ht hhash
  exact stream_handler_not_admitted bs _ mid ts rh msg hm ht (hhash ▸ h2)

/-- Witness for C8 with a concrete admitted session whose only transport has
closed. -/
theorem C8_witness :
    HttpState.allClosed
        ⟨fun k => k == 5, fun _ => none, fun k => k == 5,
          fun k => if k = 5 then some [true] else none⟩ 5 = true
    ∧ HttpState.tokens
        ⟨fun k => k == 5, fun _ => none, fun k => k == 5,
          fun k => if k = 5 then some [true] else none⟩ 5 = true
    ∧ (onCloseCount 5 (timeout_handler 10 5 100
          ⟨fun k => k == 5, fun _ => none, fun k => k == 5,
            fun k => if k = 5 then some [true] else none⟩).2 = 1
      ∧ ((timeout_handler 10 5 100
          ⟨fun k => k == 5, fun _ => none, fun k => k == 5,
            fun k => if k = 5 then some [true] else none⟩).1).tokens 5 = false
      ∧ ((timeout_handler 10 5 100
          ⟨fun k => k == 5, fun _ => none, fun k => k == 5,
            fun k => if k = 5 then some [true] else none⟩).2).findIdx
            (isOnCloseEv 5)
          < ((timeout_handler 10 5 100
          ⟨fun k => k == 5, fun _ => none, fun k => k == 5,
            fun k => if k = 5 then some [true] else none⟩).2).findIdx
            (isRemoveTokenEv 5)
      ∧ (timeout_handler 10 5 100 (timeout_handler 10 5 100
          ⟨fun k => k == 5, fun _ => none, fun k => k == 5,
            fun k => if k = 5 then some [true] else none⟩).1).2 = []
      ∧ onCloseCount 5 (timeout_handler 10 5 100 (timeout_handler 10 5 100
          ⟨fun k => k == 5, fun _ => none, fun k => k == 5,
            fun k => if k = 5 then some [true] else none⟩).1).2 = 0
      ∧ ∀ (mid ts : String) (rh : Option (Option RangeHdr))
          (msg : Option (Option Nat)),
          pyIsDigit mid = true → pyIsDigit ts = true →
          (LocalToken.initStr mid ts 0).hash = 5 →
          stream_handler 10 ((timeout_handler 10 5 100
            ⟨fun k => k == 5, fun _ => none, fun k => k == 5,
              fun k => if k = 5 then some [true] else none⟩).1).tokens
            mid ts rh msg = StreamResult.plain 403) :=
  ⟨by decide, by decide,
    C8_close_lifecycle 10 100 5
      ⟨fun k => k == 5, fun _ => none, fun k => k == 5,
        fun k => if k = 5 then some [true] else none⟩
      (by decide) (by decide)⟩
